import Mathlib

/-!
Verification of the guest-facing File Management Bridge
(`src/frameworks/foundation/ns_file_manager.rs` of touchHLE): a shallow
embedding of the `NSFileManager` facade, the search-path resolver, the
directory enumerator and the default-manager singleton, together with
theorems settling the spec claims about them.

Conventions of the embedding:
* Guest object handles of Objective-C type `id` that the facade treats as
  `NSString*` are embedded as `Option String` (`none` is `nil`, `some s` is a
  string object with contents `s`); `NSData*` as `Option (List Nat)`;
  `NSDictionary*` attribute arguments, which the code never inspects beyond a
  nil check, as `Option Unit`.
* `MutPtr` out-parameters are embedded as a `Bool` flag saying whether the
  pointer is null, plus an `Option` result holding the value written through
  it (`none` = nothing written).
* Rust `assert!` failures and `todo!()` aborts are embedded as
  `Except Abort` results.
* Every facade operation additionally returns the list of storage-engine
  calls it performed, in order, so that claims of the form "without touching
  storage" are expressible.
-/

set_option autoImplicit false

namespace TouchHLE

/-- Fatal termination of a call path: a failed Rust `assert!` or a `todo!()`
(unimplemented feature). -/
inductive Abort where
  | assertionFailure
  | todo
  deriving DecidableEq, Repr

/-- An entry of the guest filesystem: a regular file with byte contents, or a
directory. -/
inductive FsEntry where
  | file (contents : List Nat)
  | dir
  deriving DecidableEq, Repr

/-- Modelled from the spec: the external virtual filesystem service of §6
(`crate::fs::Fs`, outside the excerpt). State is a finite map from guest path
strings to entries plus the current working directory. -/
structure Fs where
  entries : List (String × FsEntry)
  wd : String
  deriving DecidableEq, Repr

/-- One call into the external storage engine, recorded by the facade
operations so that "no storage call happens" claims are expressible. -/
inductive FsCall where
  | existsQ (p : String)
  | isFile (p : String)
  | read (p : String)
  | write (p : String) (bytes : List Nat)
  | remove (p : String)
  | createDir (p : String)
  | changeWd (p : String)
  | enumerateRecursive (p : String)
  deriving DecidableEq, Repr

namespace Fs

/-- Modelled from the spec: entry lookup in the virtual filesystem. -/
def lookup (fs : Fs) (p : String) : Option FsEntry :=
  (fs.entries.find? (fun e => e.1 = p)).map Prod.snd

/-- Modelled from the spec §6: `exists(path)->bool`. -/
def existsQ (fs : Fs) (p : String) : Bool :=
  (fs.lookup p).isSome

/-- Modelled from the spec §6: `isFile(path)->bool`; true only for regular
files, not directories. -/
def is_file (fs : Fs) (p : String) : Bool :=
  match fs.lookup p with
  | some (FsEntry.file _) => true
  | _ => false

/-- Modelled from the spec: directory test used by `changeWorkingDirectory`
and enumeration. -/
def is_dir (fs : Fs) (p : String) : Bool :=
  match fs.lookup p with
  | some FsEntry.dir => true
  | _ => false

/-- Modelled from the spec §6: `read(path)->bytes|error`; fails unless a
regular file is at the path. -/
def read (fs : Fs) (p : String) : Except Unit (List Nat) :=
  match fs.lookup p with
  | some (FsEntry.file c) => Except.ok c
  | _ => Except.error ()

/-- Modelled from the spec §6: `write(path)->ok|error`; replaces or creates a
regular file, fails if a directory occupies the path. -/
def write (fs : Fs) (p : String) (bytes : List Nat) : Except Unit Fs :=
  match fs.lookup p with
  | some FsEntry.dir => Except.error ()
  | _ => Except.ok
      { fs with entries := (p, FsEntry.file bytes) :: fs.entries.filter (fun e => ¬ e.1 = p) }

/-- Modelled from the spec §6: `remove(path)->ok|error`; fails when nothing is
at the path. -/
def remove (fs : Fs) (p : String) : Except Unit Fs :=
  if fs.existsQ p then
    Except.ok { fs with entries := fs.entries.filter (fun e => ¬ e.1 = p) }
  else
    Except.error ()

/-- Modelled from the spec §6: `createDir(path)->ok|error`; fails when an
entry already occupies the path. -/
def create_dir (fs : Fs) (p : String) : Except Unit Fs :=
  if fs.existsQ p then
    Except.error ()
  else
    Except.ok { fs with entries := (p, FsEntry.dir) :: fs.entries }

/-- Modelled from the spec §6: `changeWorkingDirectory(path)->ok|error`;
succeeds exactly when a directory is at the path. -/
def change_working_directory (fs : Fs) (p : String) : Except Unit Fs :=
  if fs.is_dir p then
    Except.ok { fs with wd := p }
  else
    Except.error ()

/-- Modelled from the spec §6: `enumerateRecursive(path)->sequence|error`; a
snapshot of the entries below the given directory, in storage order. -/
def enumerate_recursive (fs : Fs) (p : String) : Except Unit (List String) :=
  if fs.is_dir p then
    Except.ok (fs.entries.filterMap
      (fun e => if e.1.startsWith (p ++ "/") then some e.1 else none))
  else
    Except.error ()

end Fs

/-- Modelled from the spec: `ns_string::to_rust_string` lives outside the
excerpt. A non-nil `NSString` handle carries its Rust string; the spec does
not define the conversion of a nil handle, so it is modelled as the empty
string — every claim below depends only on whether a storage call is
subsequently made with the converted string, never on which string nil
converts to. -/
def to_rust_string (path : Option String) : String :=
  path.getD ""

/-- Embedding of `- (bool)isReadableFileAtPath:(id)path`: converts the path,
logs, and returns `true` unconditionally; no storage-engine call. -/
def isReadableFileAtPath (fs : Fs) (path : Option String) : Bool × List FsCall :=
  let _unusedPath := to_rust_string path
  let _unusedFs := fs
  (true, [])

/-- Embedding of `- (bool)changeCurrentDirectoryPath:(id)path`: converts the
path and forwards to `Fs::change_working_directory`, mapping `Ok`/`Err` to
`true`/`false`. -/
def changeCurrentDirectoryPath (fs : Fs) (path : Option String) :
    (Bool × Fs) × List FsCall :=
  let p := to_rust_string path
  match fs.change_working_directory p with
  | Except.ok fs2 => ((true, fs2), [FsCall.changeWd p])
  | Except.error _ => ((false, fs), [FsCall.changeWd p])

/-- Embedding of `- (bool)fileExistsAtPath:(id)path`: an early `return false`
on a nil path, then (mirroring the source's redundant second nil test) the
existence query on the converted path. -/
def fileExistsAtPath (fs : Fs) (path : Option String) : Bool × List FsCall :=
  match path with
  | none => (false, [])
  | some _ =>
    match path with
    | none => (false, [])
    | some p => (fs.existsQ p, [FsCall.existsQ p])

/-- Embedding of `- (bool)fileExistsAtPath:isDirectory:`: a nil path yields
`(false, false)` with no storage call; otherwise `exists` and `is_file` are
queried and `res_is_dir = !is_file`. The `is_dir` out-parameter is written
exactly when the pointer is non-null (second component: value written). -/
def fileExistsAtPath_isDirectory (fs : Fs) (path : Option String)
    (isDirPtrNull : Bool) : (Bool × Option Bool) × List FsCall :=
  let (res_exists, res_is_dir, calls) :=
    match path with
    | none => (false, false, [])
    | some p => (fs.existsQ p, !(fs.is_file p), [FsCall.existsQ p, FsCall.isFile p])
  ((res_exists, if isDirPtrNull then none else some res_is_dir), calls)

/-- Embedding of `- (bool)createFileAtPath:contents:attributes:`. The
source's `assert!(attributes == nil)` is commented out, so the attributes
argument is ignored entirely and the definition is total. If a regular file
is already at the path the call returns `true` without writing. Otherwise the
contents (zero bytes when the data argument is nil, per
`[NSData new] writeToFile:...`, which is modelled from the spec as a
non-atomic `Fs::write` of the byte contents) are written, and the write's
outcome becomes the result. -/
def createFileAtPath (fs : Fs) (path : Option String) (data : Option (List Nat))
    (attributes : Option Unit) : (Bool × Fs) × List FsCall :=
  let _unusedAttributes := attributes
  let path_str := to_rust_string path
  if fs.is_file path_str then
    ((true, fs), [FsCall.isFile path_str])
  else
    let bytes := match data with
      | none => []
      | some d => d
    match fs.write path_str bytes with
    | Except.ok fs2 => ((true, fs2), [FsCall.isFile path_str, FsCall.write path_str bytes])
    | Except.error _ => ((false, fs), [FsCall.isFile path_str, FsCall.write path_str bytes])

/-- Embedding of `- (bool)removeItemAtPath:error:`: converts the path and
calls `Fs::remove`. `Ok` yields `true`; on `Err`, a non-null error
out-parameter hits `todo!()` (fatal), a null one yields `false`. The
`Option Unit` in the result is the value written through the error
out-parameter — always `none`, the code has no path that writes it. -/
def removeItemAtPath_error (fs : Fs) (path : Option String) (errorPtrNull : Bool) :
    Except Abort (Bool × Option Unit × Fs) × List FsCall :=
  let p := to_rust_string path
  match fs.remove p with
  | Except.ok fs2 => (Except.ok (true, none, fs2), [FsCall.remove p])
  | Except.error _ =>
    if !errorPtrNull then
      (Except.error Abort.todo, [FsCall.remove p])
    else
      (Except.ok (false, none, fs), [FsCall.remove p])

/-- Embedding of the legacy call shape
`- (bool)createDirectoryAtPath:withIntermediateDirectories:path:error:`.
Faithful to the source: the first argument (bound to the variable named
`attributes`) is asserted to be nil, the intermediates flag is asserted, and
then `to_rust_string` of that same first argument — not of the `path:`
argument, which is never used — names the directory to create. -/
def createDirectoryAtPath_withIntermediateDirectories_path_error (fs : Fs)
    (attributes : Option String) (createIntermediates : Bool)
    (path : Option String) (error : Option Unit) :
    Except Abort (Bool × Fs) × List FsCall :=
  let _unusedPath := path
  let _unusedError := error
  if ¬ attributes = none then
    (Except.error Abort.assertionFailure, [])
  else if !createIntermediates then
    (Except.error Abort.assertionFailure, [])
  else
    let path_str := to_rust_string attributes
    match fs.create_dir path_str with
    | Except.ok fs2 => (Except.ok (true, fs2), [FsCall.createDir path_str])
    | Except.error _ => (Except.ok (false, fs), [FsCall.createDir path_str])

/-- Embedding of the standard call shape
`- (bool)createDirectoryAtPath:withIntermediateDirectories:attributes:error:`:
asserts the attributes dictionary is nil and the intermediates flag is set,
then creates a directory at the converted path, mapping `Ok`/`Err` to
`true`/`false`. -/
def createDirectoryAtPath_withIntermediateDirectories_attributes_error (fs : Fs)
    (path : Option String) (createIntermediates : Bool)
    (attributes : Option Unit) (error : Option Unit) :
    Except Abort (Bool × Fs) × List FsCall :=
  let _unusedError := error
  if ¬ attributes = none then
    (Except.error Abort.assertionFailure, [])
  else if !createIntermediates then
    (Except.error Abort.assertionFailure, [])
  else
    let path_str := to_rust_string path
    match fs.create_dir path_str with
    | Except.ok fs2 => (Except.ok (true, fs2), [FsCall.createDir path_str])
    | Except.error _ => (Except.ok (false, fs), [FsCall.createDir path_str])

/-- Embedding of `- (bool)copyItemAtPath:toPath:error:`: reads the whole
source file (`todo!()` on failure), writes the bytes to the destination
(`todo!()` on failure), and returns `true`. The error out-parameter is never
consulted. -/
def copyItemAtPath_toPath_error (fs : Fs) (src : Option String)
    (dst : Option String) (error : Option Unit) :
    Except Abort (Bool × Fs) × List FsCall :=
  let _unusedError := error
  let s := to_rust_string src
  let d := to_rust_string dst
  match fs.read s with
  | Except.error _ => (Except.error Abort.todo, [FsCall.read s])
  | Except.ok data =>
    match fs.write d data with
    | Except.error _ =>
      (Except.error Abort.todo, [FsCall.read s, FsCall.write d data])
    | Except.ok fs2 =>
      (Except.ok (true, fs2), [FsCall.read s, FsCall.write d data])

/-- Embedding of `- (id)enumeratorAtPath:`: snapshots
`Fs::enumerate_recursive` of the converted path into a fresh enumerator
(`none` = the method returned nil because enumeration failed; `some l` = an
enumerator whose host object holds the iterator over `l`). -/
def enumeratorAtPath (fs : Fs) (path : Option String) :
    Option (List String) × List FsCall :=
  let p := to_rust_string path
  match fs.enumerate_recursive p with
  | Except.error _ => (none, [FsCall.enumerateRecursive p])
  | Except.ok paths => (some paths, [FsCall.enumerateRecursive p])

/-- Embedding of `- (id)nextObject` on `NSDirectoryEnumerator`: the host
object's `iterator.next()` returns the next snapshot entry as a string proxy,
or nil (`none`) once the iterator is spent. The state is the list of
remaining entries. -/
def nextObject (st : List String) : Option String × List String :=
  match st with
  | [] => (none, [])
  | s :: rest => (some s, rest)

/-- Result of the `(k+1)`-th `nextObject` call on an enumerator created over
the given snapshot, paired with the enumerator state after that call. -/
def runNext (snapshot : List String) : Nat → Option String × List String
  | 0 => nextObject snapshot
  | k + 1 => runNext (nextObject snapshot).2 k

/-- The `NSSearchPathDirectory` constant `NSApplicationDirectory`. -/
def NSApplicationDirectory : Nat := 1

/-- The `NSSearchPathDirectory` constant `NSDocumentDirectory`. -/
def NSDocumentDirectory : Nat := 9

/-- The `NSSearchPathDirectory` constant `NSApplicationSupportDirectory`. -/
def NSApplicationSupportDirectory : Nat := 14

/-- The `NSSearchPathDomainMask` constant `NSUserDomainMask`. -/
def NSUserDomainMask : Nat := 1

/-- Modelled from the spec: `crate::fs::APPLICATIONS`, the canonical guest
applications directory, a fixed string outside the excerpt. Its exact value
is irrelevant to every claim below. -/
def APPLICATIONS : String := "/User/Applications"

/-- Modelled from the spec: `GuestPath::join`, a flat deterministic join
inserting a separator. -/
def joinPath (base component : String) : String :=
  base ++ "/" ++ component

/-- Embedding of `NSSearchPathForDirectoriesInDomains`: asserts the single
supported domain mask and tilde expansion, then matches the directory value
with the source's arm order — `NSApplicationDirectory`, then
`NSDocumentDirectory | 5`, then the unreachable second `5` arm, then
`NSApplicationSupportDirectory`, then `todo!()`. The source wraps the single
resulting path in a one-element `NSArray`; the embedding returns the path
itself. -/
def NSSearchPathForDirectoriesInDomains (home : String) (directory : Nat)
    (domain_mask : Nat) (expand_tilde : Bool) : Except Abort String :=
  if ¬ domain_mask = NSUserDomainMask then
    Except.error Abort.assertionFailure
  else if !expand_tilde then
    Except.error Abort.assertionFailure
  else if directory = NSApplicationDirectory then
    Except.ok APPLICATIONS
  else if directory = NSDocumentDirectory ∨ directory = 5 then
    Except.ok (joinPath home "Documents")
  else if directory = 5 then
    Except.ok (joinPath home "Documents")
  else if directory = NSApplicationSupportDirectory then
    Except.ok (joinPath (joinPath home "Library") "Application Support")
  else
    Except.error Abort.todo

/-- Embedding of the `ns_file_manager::State` struct plus the allocator, for
`defaultManager`: the cached singleton handle and the handle the next `new`
allocation would return (fresh handles are distinct from all earlier ones). -/
structure MgrState where
  default_manager : Option Nat
  next_alloc : Nat
  deriving DecidableEq, Repr

/-- Embedding of `+ (id)defaultManager`: returns the cached handle if one
exists; otherwise allocates a fresh facade instance, caches it, and returns
it. -/
def defaultManager (s : MgrState) : Nat × MgrState :=
  match s.default_manager with
  | some existing => (existing, s)
  | none =>
    (s.next_alloc,
      { default_manager := some s.next_alloc, next_alloc := s.next_alloc + 1 })

/-! ## Helper lemmas -/

/-- When nothing is at `p`, filtering `p` out of the entry list is the
identity. -/
theorem entries_filter_of_not_exists (fs : Fs) (p : String)
    (h : fs.existsQ p = false) :
    fs.entries.filter (fun e => ¬ e.1 = p) = fs.entries := by
  rw [List.filter_eq_self]
  intro e he
  simp only [decide_eq_true_eq]
  intro hep
  have hnone : fs.lookup p = none := by
    simpa [Fs.existsQ, Option.isSome_iff_exists] using h
  have hfind : fs.entries.find? (fun e => e.1 = p) = none := by
    simpa [Fs.lookup] using hnone
  have := List.find?_eq_none.mp hfind e he
  simp [hep] at this

/-- When nothing is at `p`, no lookup at `p` succeeds. -/
theorem lookup_eq_none_of_not_exists (fs : Fs) (p : String)
    (h : fs.existsQ p = false) : fs.lookup p = none := by
  simpa [Fs.existsQ, Option.isSome_iff_exists] using h

/-- Characterization of the enumerator run: the `(k+1)`-th `nextObject` call
returns the `k`-th snapshot entry (or `none` past the end), and leaves the
first `k+1` entries consumed. -/
theorem runNext_eq (k : Nat) (l : List String) :
    runNext l k = (l[k]?, l.drop (k + 1)) := by
  induction k generalizing l with
  | zero => cases l <;> simp [runNext, nextObject]
  | succ k ih =>
    cases l with
    | nil => simpa [runNext, nextObject] using ih []
    | cons x xs => simpa [runNext, nextObject] using ih xs

/-! ## Claims -/

/-- C10: `isReadableFileAtPath:` returns `true` for every path input,
including nil and paths with no file, and performs no storage-engine call. -/
theorem C10_isReadableFileAtPath_always_true (fs : Fs) (path : Option String) :
    isReadableFileAtPath fs path = (true, []) := rfl

/-- C6: for every home-directory value, `NSSearchPathForDirectoriesInDomains`
with the user domain mask and tilde expansion resolves both
`NSDocumentDirectory` (9) and the numeric alias 5 to the same
`home/Documents` path; the first matching arm (`NSDocumentDirectory | 5`)
decides the result, and the later dead `5` arm agrees with it. -/
theorem C6_document_directory_alias (home : String) :
    NSSearchPathForDirectoriesInDomains home NSDocumentDirectory NSUserDomainMask true
        = Except.ok (joinPath home "Documents") ∧
    NSSearchPathForDirectoriesInDomains home 5 NSUserDomainMask true
        = Except.ok (joinPath home "Documents") := by
  constructor <;> rfl

/-- C7: `defaultManager` is an idempotent singleton: two consecutive calls
return the same handle and the second call leaves the state unchanged (no
allocation); after any call the returned handle is the cached one; and from
an uncached state the first call allocates exactly one fresh instance and
caches it. -/
theorem C7_defaultManager_singleton (s : MgrState) :
    (defaultManager (defaultManager s).2).1 = (defaultManager s).1 ∧
    (defaultManager (defaultManager s).2).2 = (defaultManager s).2 ∧
    (defaultManager s).2.default_manager = some (defaultManager s).1 ∧
    (s.default_manager = none →
      (defaultManager s).1 = s.next_alloc ∧
      (defaultManager s).2.next_alloc = s.next_alloc + 1) := by
  cases h : s.default_manager <;> simp [defaultManager, h]

/-- Witness for C7 at the concrete uncached state `⟨none, 0⟩`. -/
theorem C7_defaultManager_singleton_witness :
    (defaultManager (defaultManager ⟨none, 0⟩).2).1 = (defaultManager ⟨none, 0⟩).1 ∧
    (defaultManager (⟨none, 0⟩ : MgrState)).1 = 0 ∧
    (defaultManager (⟨none, 0⟩ : MgrState)).2.next_alloc = 0 + 1 :=
  ⟨(C7_defaultManager_singleton ⟨none, 0⟩).1,
   ((C7_defaultManager_singleton ⟨none, 0⟩).2.2.2 rfl).1,
   ((C7_defaultManager_singleton ⟨none, 0⟩).2.2.2 rfl).2⟩

/-- C5: over a snapshot of `N` entries, the `(k+1)`-th `nextObject` call
returns exactly the `k`-th snapshot entry while `k < N` (one entry per call,
in snapshot order), and the sentinel `none` from the `(N+1)`-th call on;
once exhausted the state stays exhausted (`[]`) and keeps yielding the
sentinel. -/
theorem C5_enumerator_exhaustion (l : List String) (k : Nat) :
    (runNext l k).1 = l[k]? ∧
    (∀ h : k < l.length, (runNext l k).1 = some (l.get ⟨k, h⟩)) ∧
    (l.length ≤ k → runNext l k = (none, [])) := by
  refine ⟨?_, ?_, ?_⟩
  · rw [runNext_eq]
  · intro h
    rw [runNext_eq]
    simp [List.getElem?_eq_getElem h]
  · intro h
    rw [runNext_eq]
    rw [List.getElem?_eq_none h, List.drop_eq_nil_of_le (by omega)]

/-- Witness for C5 at the concrete snapshot `["a", "b"]`: the first call
returns the first entry, and the sixth call (past exhaustion) returns the
sentinel with the enumerator exhausted. -/
theorem C5_enumerator_exhaustion_witness :
    (runNext ["a", "b"] 0).1 = some "a" ∧ runNext ["a", "b"] 5 = (none, []) :=
  ⟨(C5_enumerator_exhaustion ["a", "b"] 0).2.1 (by decide),
   (C5_enumerator_exhaustion ["a", "b"] 5).2.2 (by decide)⟩

/-- C4: `removeItemAtPath:error:` returns `true` exactly when the storage
engine's `remove` succeeds (with the updated filesystem); when `remove` fails
and the error out-parameter is null, it returns `false` with the
out-parameter untouched (`none` is ever written through it); when `remove`
fails and the out-parameter is non-null, it aborts with the fatal
unsupported-feature signal `todo` — never silent success and never a
populated error object. Exactly one `remove` storage call happens. -/
theorem C4_removeItemAtPath_error_contract (fs : Fs) (path : Option String)
    (errorPtrNull : Bool) :
    removeItemAtPath_error fs path errorPtrNull =
      (match fs.remove (to_rust_string path) with
       | Except.ok fs2 => Except.ok (true, none, fs2)
       | Except.error _ =>
         if errorPtrNull then Except.ok (false, none, fs)
         else Except.error Abort.todo,
       [FsCall.remove (to_rust_string path)]) := by
  unfold removeItemAtPath_error
  cases h : fs.remove (to_rust_string path) <;> cases errorPtrNull <;> simp [h]

/-- C8: when a regular file is already at the path,
`createFileAtPath:contents:attributes:` returns `true` and leaves the
filesystem untouched — the only storage call is the `is_file` query, no
write happens; and when nothing is at the path and the contents argument is
nil, it writes a zero-byte file there and returns `true`. -/
theorem C8_createFileAtPath_contract (fs : Fs) (p : String)
    (data : Option (List Nat)) (attributes : Option Unit) :
    (fs.is_file p = true →
      createFileAtPath fs (some p) data attributes
        = ((true, fs), [FsCall.isFile p])) ∧
    (fs.existsQ p = false →
      createFileAtPath fs (some p) none attributes
        = ((true, { fs with entries := (p, FsEntry.file []) :: fs.entries }),
           [FsCall.isFile p, FsCall.write p []])) := by
  constructor
  · intro h
    unfold createFileAtPath
    simp [to_rust_string, h]
  · intro h
    have hlook := lookup_eq_none_of_not_exists fs p h
    have hfile : fs.is_file p = false := by simp [Fs.is_file, hlook]
    have hfilter := entries_filter_of_not_exists fs p h
    unfold createFileAtPath Fs.write
    simp only [to_rust_string, Option.getD_some, hfile, hlook, hfilter,
      Bool.false_eq_true, if_false, ite_false]

/-- Witness for C8: at a filesystem holding the regular file `f`, creating
`f` again succeeds without change; at the empty filesystem, creating `f`
with nil contents writes a zero-byte file. -/
theorem C8_createFileAtPath_contract_witness :
    createFileAtPath ⟨[("f", FsEntry.file [7])], "/"⟩ (some "f") none none
        = ((true, ⟨[("f", FsEntry.file [7])], "/"⟩), [FsCall.isFile "f"]) ∧
    createFileAtPath ⟨[], "/"⟩ (some "f") none none
        = ((true, ⟨[("f", FsEntry.file [])], "/"⟩),
           [FsCall.isFile "f", FsCall.write "f" []]) :=
  ⟨(C8_createFileAtPath_contract ⟨[("f", FsEntry.file [7])], "/"⟩ "f" none none).1
      (by decide),
   (C8_createFileAtPath_contract ⟨[], "/"⟩ "f" none none).2 (by decide)⟩

/-- C9: `copyItemAtPath:toPath:error:` returns `true` exactly when reading
the whole source and writing it to the destination both succeed; when the
read fails, or the read succeeds and the write fails, the call aborts with
the fatal `todo` signal instead of returning `false`; and no `Except.ok`
result ever carries `false`. -/
theorem C9_copyItemAtPath_contract (fs : Fs) (src dst : Option String)
    (error : Option Unit) :
    (∀ d fs2, fs.read (to_rust_string src) = Except.ok d →
        fs.write (to_rust_string dst) d = Except.ok fs2 →
        (copyItemAtPath_toPath_error fs src dst error).1 = Except.ok (true, fs2)) ∧
    (fs.read (to_rust_string src) = Except.error () →
        (copyItemAtPath_toPath_error fs src dst error).1 = Except.error Abort.todo) ∧
    (∀ d, fs.read (to_rust_string src) = Except.ok d →
        fs.write (to_rust_string dst) d = Except.error () →
        (copyItemAtPath_toPath_error fs src dst error).1 = Except.error Abort.todo) ∧
    (∀ b fs2, (copyItemAtPath_toPath_error fs src dst error).1 = Except.ok (b, fs2) →
        b = true) := by
  unfold copyItemAtPath_toPath_error
  refine ⟨?_, ?_, ?_, ?_⟩
  · intro d fs2 hr hw
    simp [hr, hw]
  · intro hr
    simp [hr]
  · intro d hr hw
    simp [hr, hw]
  · intro b fs2
    cases hr : fs.read (to_rust_string src) with
    | error e => simp [hr]
    | ok d =>
      cases hw : fs.write (to_rust_string dst) d with
      | error e => simp [hr, hw]
      | ok fs3 => simp [hr, hw]; intro hb _; exact hb

/-- Witness for C9 at concrete filesystems: a successful copy of `s` to `d`,
a fatal abort when the source is missing, and a fatal abort when the
destination is a directory so the write fails. -/
theorem C9_copyItemAtPath_contract_witness :
    (copyItemAtPath_toPath_error ⟨[("s", FsEntry.file [1])], "/"⟩
        (some "s") (some "d") none).1
      = Except.ok (true, ⟨[("d", FsEntry.file [1]), ("s", FsEntry.file [1])], "/"⟩) ∧
    (copyItemAtPath_toPath_error ⟨[], "/"⟩ (some "s") (some "d") none).1
      = Except.error Abort.todo ∧
    (copyItemAtPath_toPath_error ⟨[("s", FsEntry.file [1]), ("d", FsEntry.dir)], "/"⟩
        (some "s") (some "d") none).1
      = Except.error Abort.todo :=
  ⟨(C9_copyItemAtPath_contract ⟨[("s", FsEntry.file [1])], "/"⟩
        (some "s") (some "d") none).1 [1]
      ⟨[("d", FsEntry.file [1]), ("s", FsEntry.file [1])], "/"⟩ rfl rfl,
   (C9_copyItemAtPath_contract ⟨[], "/"⟩ (some "s") (some "d") none).2.1 rfl,
   (C9_copyItemAtPath_contract ⟨[("s", FsEntry.file [1]), ("d", FsEntry.dir)], "/"⟩
        (some "s") (some "d") none).2.2.1 [1] rfl rfl⟩

/-- C1 counterexample: at the empty filesystem, `removeItemAtPath:error:`
with a nil path and a null error out-parameter does invoke the storage
engine (one `remove` call on the converted path), refuting the claim that
every listed boolean operation short-circuits on nil without touching
storage. -/
theorem C1_nil_path_counterexample :
    (removeItemAtPath_error ⟨[], "/"⟩ none true).2 = [FsCall.remove ""] ∧
    ¬ (removeItemAtPath_error ⟨[], "/"⟩ none true).2 = [] := by
  decide

/-- C1 as amended: only `fileExistsAtPath:` and
`fileExistsAtPath:isDirectory:` short-circuit on a nil path, returning
`false` (and writing `false` through a non-null out-parameter) with no
storage-engine call; `createFileAtPath:contents:attributes:`,
`removeItemAtPath:error:`, both `createDirectoryAtPath` variants (with the
intermediates flag set and nil attributes, so that their assertions pass),
and `changeCurrentDirectoryPath:` all convert the nil path to a string and
do invoke the storage engine on it, as the listed nonempty call traces
show. -/
theorem C1_nil_path_amended (fs : Fs) (data : Option (List Nat))
    (attributes : Option Unit) (isDirPtrNull errorPtrNull : Bool)
    (pathArg : Option String) (err : Option Unit) :
    fileExistsAtPath fs none = (false, []) ∧
    fileExistsAtPath_isDirectory fs none isDirPtrNull
      = ((false, if isDirPtrNull then none else some false), []) ∧
    (createFileAtPath fs none data attributes).2.head?
      = some (FsCall.isFile (to_rust_string none)) ∧
    (removeItemAtPath_error fs none errorPtrNull).2
      = [FsCall.remove (to_rust_string none)] ∧
    (createDirectoryAtPath_withIntermediateDirectories_path_error
        fs none true pathArg err).2 = [FsCall.createDir (to_rust_string none)] ∧
    (createDirectoryAtPath_withIntermediateDirectories_attributes_error
        fs none true none err).2 = [FsCall.createDir (to_rust_string none)] ∧
    (changeCurrentDirectoryPath fs none).2
      = [FsCall.changeWd (to_rust_string none)] := by
  refine ⟨rfl, rfl, ?_, ?_, ?_, ?_, ?_⟩
  · unfold createFileAtPath
    cases h : fs.is_file (to_rust_string none) with
    | true => simp [h]
    | false =>
      cases hw : fs.write (to_rust_string none)
          (match data with | none => [] | some d => d) <;> simp [h, hw]
  · unfold removeItemAtPath_error
    cases h : fs.remove (to_rust_string none) <;> cases errorPtrNull <;> simp [h]
  · unfold createDirectoryAtPath_withIntermediateDirectories_path_error
    cases h : fs.create_dir (to_rust_string none) <;> simp [h]
  · unfold createDirectoryAtPath_withIntermediateDirectories_attributes_error
    cases h : fs.create_dir (to_rust_string none) <;> simp [h]
  · unfold changeCurrentDirectoryPath
    cases h : fs.change_working_directory (to_rust_string none) <;> simp [h]

/-- C2: the two `createDirectoryAtPath` entry points are not equivalent. At
the empty filesystem with nil attributes and the intermediates flag set, the
standard shape creates `somedir` and returns true; the legacy shape with the
path string in its first slot fails its `assert!(attributes == nil)` before
any storage call, and with the path string in its `path:` slot it ignores it
and creates a directory at the conversion of the nil first argument instead. -/
theorem C2_entry_points_diverge :
    createDirectoryAtPath_withIntermediateDirectories_attributes_error
        ⟨[], "/"⟩ (some "somedir") true none none
      = (Except.ok (true, ⟨[("somedir", FsEntry.dir)], "/"⟩),
         [FsCall.createDir "somedir"]) ∧
    createDirectoryAtPath_withIntermediateDirectories_path_error
        ⟨[], "/"⟩ (some "somedir") true none none
      = (Except.error Abort.assertionFailure, []) ∧
    createDirectoryAtPath_withIntermediateDirectories_path_error
        ⟨[], "/"⟩ none true (some "somedir") none
      = (Except.ok (true, ⟨[("", FsEntry.dir)], "/"⟩), [FsCall.createDir ""]) :=
  ⟨rfl, rfl, rfl⟩

/-- C3: `createFileAtPath:contents:attributes:` with a non-nil attributes
argument does not abort — the source's `assert!(attributes == nil)` is
commented out — and instead proceeds to create the file: at the empty
filesystem, with nil contents and a non-nil attributes dictionary, it writes
a zero-byte file at `f` and returns `true`. -/
theorem C3_nonnil_attributes_not_fatal :
    createFileAtPath ⟨[], "/"⟩ (some "f") none (some ())
      = ((true, ⟨[("f", FsEntry.file [])], "/"⟩),
         [FsCall.isFile "f", FsCall.write "f" []]) :=
  rfl

end TouchHLE
